import Mathlib

/-!
Verification of the Sleep Schedule Calculation & Validation core of the
temperature-profile form (`src/components/temperatureProfileForm.tsx`).

The embedding below translates, from the source:
  * the zod time-string validator `temperatureProfileSchema`
    (`z.string().regex(/^\d{2}:\d{2}$/)`) as `schemaAccepts`;
  * the sleep-duration `useEffect` (lines 93-124): rollover adjustment
    `wakeDate <= bedDate`, the millisecond duration arithmetic (exact in
    whole minutes), the `hours < 4` validity check, the stage-time dates
    and their `toTimeString().slice(0,5)` rendering, as `recompute`;
  * the profile value codec: `profile.xSleepLevel / 10` on load (`decode`)
    and `Math.round(data.xSleepLevel * 10)` on submit (`encode`);
  * the submission guard in `onSubmit` (early return on
    `sleepDurationError`) as `onSubmit`;
  * the delete mutation's `onSuccess` handler
    (`setIsExistingProfile(false); reset()`) as `onDeleteSuccess`,
    with `useFormDefaults` the `defaultValues` record of `useForm`.

Times of day are minutes since local midnight. `Date` arithmetic on the
fixed day 2000-01-01 is whole-minute arithmetic; `toTimeString` of a date
whose absolute minute count (from 2000-01-01T00:00) is `a` displays hour
`a / 60 % 24` and minute `a % 60`.
-/

namespace EightSleep

/-- Acceptance test of `temperatureProfileSchema` for the two time
fields: the regex `/^\d{2}:\d{2}$/`, whose `\d` is satisfied exactly by
the ten ASCII digit characters tested by `Char.isDigit`. This is the
only validation the schema performs on the time strings. -/
def schemaAccepts (s : String) : Bool :=
  match s.data with
  | [a, b, c, d, e] => a.isDigit && b.isDigit && (c == ':') && d.isDigit && e.isDigit
  | _ => false

/-- Modelled from the spec: the spec's §4.1 parser contract additionally
requires hour in 0..23 and minute in 0..59. This comparator definition
follows the spec's words; no such range check exists in the source
schema. -/
def specAccepts (s : String) : Bool :=
  match s.data with
  | [a, b, c, d, e] =>
    a.isDigit && b.isDigit && (c == ':') && d.isDigit && e.isDigit &&
    ((a.toNat - 48) * 10 + (b.toNat - 48) ≤ 23) &&
    ((d.toNat - 48) * 10 + (e.toNat - 48) ≤ 59)
  | _ => false

/-- Two-digit zero-padded decimal rendering of `n ≤ 99`, as
`toTimeString` renders hour and minute fields. -/
def twoDigitStr (n : Nat) : String :=
  ⟨[Char.ofNat (48 + n / 10), Char.ofNat (48 + n % 10)]⟩

/-- The five-character string `HH:MM` built from two two-digit decimal
components. -/
def timeStr (h m : Nat) : String :=
  ⟨[Char.ofNat (48 + h / 10), Char.ofNat (48 + h % 10), ':',
    Char.ofNat (48 + m / 10), Char.ofNat (48 + m % 10)]⟩

/-- Rendering `toTimeString().slice(0, 5)` of a date whose absolute
minute count is `a`: hour-of-day and minute-of-hour, zero padded. -/
def timeOfDayStr (a : Nat) : String :=
  twoDigitStr (a / 60 % 24) ++ ":" ++ twoDigitStr (a % 60)

/-- The rollover test of the duration effect:
`if (wakeDate <= bedDate) wakeDate.setDate(wakeDate.getDate() + 1)`. -/
def wakeIsNextDay (bed wake : Nat) : Bool :=
  decide (wake ≤ bed)

/-- Absolute minute count of `wakeDate` after the rollover adjustment
(`bedDate` sits at absolute minute `bed`). -/
def wakeAdjusted (bed wake : Nat) : Nat :=
  if wake ≤ bed then wake + 1440 else wake

/-- The elapsed sleep duration in minutes, `durationMs / 60000`. -/
def durationMinutes (bed wake : Nat) : Nat :=
  wakeAdjusted bed wake - bed

/-- The `sleepInfo` record: displayed duration text and the two displayed
stage-transition times. -/
structure SleepInfo where
  duration : String
  midStageTime : String
  finalStageTime : String
deriving DecidableEq, Repr

/-- Time-of-day (minutes) of the mid-stage transition date
`bedDate + 60 * 60 * 1000`. -/
def midStageTime (bed _wake : Nat) : Nat :=
  (bed + 60) % 1440

/-- Time-of-day (minutes) of the final-stage transition date
`wakeDate - 2 * 60 * 60 * 1000`. -/
def finalStageTime (bed wake : Nat) : Nat :=
  (wakeAdjusted bed wake - 120) % 1440

/-- The body of the duration `useEffect`: returns the
`sleepDurationError` state it sets (`none` when the error is cleared)
and the `sleepInfo` state it sets. Hours and minutes are exact because
the millisecond difference of the two dates is a whole number of
minutes, so `Math.floor` and `Math.round` introduce no error. -/
def recompute (bed wake : Nat) : Option String × SleepInfo :=
  let d := durationMinutes bed wake
  let hours := d / 60
  let minutes := d % 60
  if hours < 4 then
    (some "Sleep duration must be at least 4 hours.", ⟨"", "", ""⟩)
  else
    (none,
     ⟨toString hours ++ " hours " ++ toString minutes ++ " minutes",
      timeOfDayStr (bed + 60),
      timeOfDayStr (wakeAdjusted bed wake - 120)⟩)

/-- Load-side codec, `profile.initialSleepLevel / 10`: JavaScript
division, so fractional results pass through undisturbed. -/
def decode (stored : Int) : ℚ :=
  (stored : ℚ) / 10

/-- JavaScript `Math.round`: round half toward positive infinity. -/
def jsRound (q : ℚ) : Int :=
  ⌊q + 1 / 2⌋

/-- Submit-side codec, `Math.round(data.initialSleepLevel * 10)`. -/
def encode (level : ℚ) : Int :=
  jsRound (level * 10)

/-- The editable form state: the fields of `TemperatureProfileForm`
relevant to the claims (timezone kept as its identifier string). -/
structure EditableState where
  bedTime : String
  wakeupTime : String
  initialSleepLevel : ℚ
  midStageSleepLevel : ℚ
  finalSleepLevel : ℚ
  timezone : String
deriving DecidableEq, Repr

/-- The `defaultValues` record passed to `useForm`. -/
def useFormDefaults : EditableState :=
  ⟨"22:00", "06:00", 0, 0, 0, "America/New_York"⟩

/-- Component state touched by the delete handler: the form values and
the `isExistingProfile` flag. -/
structure ComponentState where
  form : EditableState
  isExistingProfile : Bool
deriving DecidableEq, Repr

/-- Success handler of `deleteProfileMutation`:
`setIsExistingProfile(false); reset()`, where `reset()` restores the
`defaultValues` of `useForm`. It reads nothing from the previous state
and calls neither `decode` nor `encode`. -/
def onDeleteSuccess (_s : ComponentState) : ComponentState :=
  ⟨useFormDefaults, false⟩

/-- Serialization `formatTimeForAPI`: appends the fixed
`:00.000000` seconds field to an `HH:MM` string. -/
def formatTimeForAPI (time : String) : String :=
  time ++ ":00.000000"

/-- The outbound write payload `mutationData` built in `onSubmit`. -/
structure MutationData where
  bedTime : String
  wakeupTime : String
  initialSleepLevel : Int
  midStageSleepLevel : Int
  finalSleepLevel : Int
  timezoneTZ : String
deriving DecidableEq, Repr

/-- The submission handler `onSubmit`: if `sleepDurationError` is set it
returns before building `mutationData`; otherwise it builds the payload
and hands it to `updateProfileMutation.mutate`. The returned option is
the payload given to the network layer; `none` means no network
interaction occurs. -/
def onSubmit (sleepDurationError : Option String) (data : EditableState) :
    Option MutationData :=
  match sleepDurationError with
  | some _ => none
  | none =>
    some ⟨formatTimeForAPI data.bedTime,
          formatTimeForAPI data.wakeupTime,
          encode data.initialSleepLevel,
          encode data.midStageSleepLevel,
          encode data.finalSleepLevel,
          data.timezone⟩

/-- A digit character has code point between 48 and 57. -/
theorem toNat_of_isDigit {c : Char} (h : c.isDigit = true) :
    48 ≤ c.toNat ∧ c.toNat ≤ 57 := by
  simp only [Char.isDigit, Bool.and_eq_true, decide_eq_true_eq, ge_iff_le] at h
  obtain ⟨h1, h2⟩ := h
  rw [UInt32.le_def, BitVec.le_def] at h1 h2
  simp only [UInt32.toBitVec_ofNat] at h1 h2
  constructor
  · simpa [Char.toNat, UInt32.toNat] using h1
  · simpa [Char.toNat, UInt32.toNat] using h2

/-- The character of a decimal digit is a digit character. -/
theorem ofNat_digit_isDigit {x : Nat} (hx : x ≤ 9) :
    (Char.ofNat (48 + x)).isDigit = true := by
  interval_cases x <;> decide

/-- Displayed time of day depends only on the minute count modulo a
day. -/
theorem timeOfDayStr_mod (a : Nat) : timeOfDayStr (a % 1440) = timeOfDayStr a := by
  unfold timeOfDayStr
  rw [show a % 1440 / 60 % 24 = a / 60 % 24 by omega,
      show a % 1440 % 60 = a % 60 by omega]

/-- C1 counterexample: at bed = wake = 480 (08:00) the rollover rule
fires (the code tests `wakeDate <= bedDate`, which includes equality),
and the computed duration is exactly 1440 minutes, refuting both the
stated range [0, 1440) and the stated exclusion of wake == bed. -/
theorem duration_reaches_1440_at_equal_times :
    durationMinutes 480 480 = 1440 ∧ ¬ durationMinutes 480 480 < 1440 ∧
      wakeIsNextDay 480 480 = true := by decide

/-- C1 (amended): for every pair of parsed times, durationMinutes lies
in [1, 1440], and it equals 1440 exactly when wake = bed — wake == bed
is included, not excluded, by the rollover rule. -/
theorem durationMinutes_range (bed wake : Nat) (hb : bed < 1440) (hw : wake < 1440) :
    1 ≤ durationMinutes bed wake ∧ durationMinutes bed wake ≤ 1440 ∧
      (durationMinutes bed wake = 1440 ↔ wake = bed) := by
  unfold durationMinutes wakeAdjusted
  split <;> omega

/-- Witness for C1 (amended) at bed = 22:00, wake = 06:00. -/
theorem durationMinutes_range_witness :
    1 ≤ durationMinutes 1320 360 ∧ durationMinutes 1320 360 ≤ 1440 ∧
      (durationMinutes 1320 360 = 1440 ↔ (360 : Nat) = 1320) :=
  durationMinutes_range 1320 360 (by decide) (by decide)

/-- C2: when the rollover-adjusted duration is below 240 minutes, the
duration effect sets exactly the error "Sleep duration must be at least
4 hours." and clears the derived mid-stage and final-stage display
values; when the duration is at least 240 minutes it sets no error (the
code's `hours < 4` test is equivalent to `durationMinutes < 240`). -/
theorem min_duration_policy (bed wake : Nat) (hb : bed < 1440) (hw : wake < 1440) :
    (durationMinutes bed wake < 240 →
      recompute bed wake =
        (some "Sleep duration must be at least 4 hours.", ⟨"", "", ""⟩)) ∧
    (240 ≤ durationMinutes bed wake → (recompute bed wake).1 = none) := by
  constructor
  · intro h
    unfold recompute
    rw [if_pos (by omega)]
  · intro h
    unfold recompute
    rw [if_neg (by omega)]

/-- Witness for C2 at bed = 23:30, wake = 00:30 (duration 60 < 240). -/
theorem min_duration_policy_witness :
    recompute 1410 30 = (some "Sleep duration must be at least 4 hours.", ⟨"", "", ""⟩) :=
  (min_duration_policy 1410 30 (by decide) (by decide)).1 (by decide)

/-- C3: on a valid window the effect displays the mid-stage transition
at time-of-day (bed + 60) mod 1440 and the final-stage transition at
(rollover-adjusted wake − 120) mod 1440 (stated over ℤ to match the
spec's modulo reading); concretely, bed = 22:00 (1320) and wake = 06:00
(360) give duration 480 with displays "23:00" and "04:00". -/
theorem stage_times (bed wake : Nat) (hb : bed < 1440) (hw : wake < 1440)
    (hd : 240 ≤ durationMinutes bed wake) :
    (recompute bed wake).2.midStageTime = timeOfDayStr (midStageTime bed wake) ∧
    (recompute bed wake).2.finalStageTime = timeOfDayStr (finalStageTime bed wake) ∧
    midStageTime bed wake = (bed + 60) % 1440 ∧
    (finalStageTime bed wake : Int) = ((wakeAdjusted bed wake : Int) - 120) % 1440 ∧
    durationMinutes 1320 360 = 480 ∧
    recompute 1320 360 = (none, ⟨"8 hours 0 minutes", "23:00", "04:00"⟩) := by
  have hrec : recompute bed wake =
      (none,
       ⟨toString (durationMinutes bed wake / 60) ++ " hours " ++
          toString (durationMinutes bed wake % 60) ++ " minutes",
        timeOfDayStr (bed + 60),
        timeOfDayStr (wakeAdjusted bed wake - 120)⟩) := by
    unfold recompute
    rw [if_neg (by omega)]
  have hwa : 240 ≤ wakeAdjusted bed wake - bed := hd
  refine ⟨?_, ?_, rfl, ?_, by decide, by decide⟩
  · rw [hrec, midStageTime, timeOfDayStr_mod]
  · rw [hrec, finalStageTime, timeOfDayStr_mod]
  · unfold finalStageTime
    omega

/-- Witness for C3 at bed = 22:00, wake = 06:00. -/
theorem stage_times_witness :
    (recompute 1320 360).2.midStageTime = timeOfDayStr (midStageTime 1320 360) ∧
    (recompute 1320 360).2.finalStageTime = timeOfDayStr (finalStageTime 1320 360) ∧
    midStageTime 1320 360 = (1320 + 60) % 1440 ∧
    (finalStageTime 1320 360 : Int) = ((wakeAdjusted 1320 360 : Int) - 120) % 1440 ∧
    durationMinutes 1320 360 = 480 ∧
    recompute 1320 360 = (none, ⟨"8 hours 0 minutes", "23:00", "04:00"⟩) :=
  stage_times 1320 360 (by decide) (by decide) (by decide)

/-- C4 counterexample: "25:00" and "12:61" match the digit pattern with
an out-of-range hour and minute, yet the schema accepts them — the
range check required by the claim (captured by `specAccepts`) does not
exist in the code. -/
theorem out_of_range_time_accepted :
    schemaAccepts "25:00" = true ∧ schemaAccepts "12:61" = true ∧
      specAccepts "25:00" = false ∧ specAccepts "12:61" = false := by decide

/-- C4 (amended): the schema accepts a time string exactly when it
matches `\d{2}:\d{2}`, i.e. exactly the strings DD:DD whose two-digit
components each lie in [0, 99]; the hour/minute clock-range check is
not performed. -/
theorem schemaAccepts_iff_twoDigitPair (s : String) :
    schemaAccepts s = true ↔ ∃ h m, h ≤ 99 ∧ m ≤ 99 ∧ s = timeStr h m := by
  obtain ⟨l⟩ := s
  constructor
  · intro hacc
    match l, hacc with
    | [a, b, c, d, e], hacc =>
      simp only [schemaAccepts, Bool.and_eq_true, beq_iff_eq] at hacc
      obtain ⟨⟨⟨⟨ha, hb⟩, hc⟩, hd⟩, he⟩ := hacc
      obtain ⟨ha1, ha2⟩ := toNat_of_isDigit ha
      obtain ⟨hb1, hb2⟩ := toNat_of_isDigit hb
      obtain ⟨hd1, hd2⟩ := toNat_of_isDigit hd
      obtain ⟨he1, he2⟩ := toNat_of_isDigit he
      refine ⟨(a.toNat - 48) * 10 + (b.toNat - 48),
              (d.toNat - 48) * 10 + (e.toNat - 48), by omega, by omega, ?_⟩
      unfold timeStr
      rw [show ((a.toNat - 48) * 10 + (b.toNat - 48)) / 10 = a.toNat - 48 by omega]
      rw [show ((a.toNat - 48) * 10 + (b.toNat - 48)) % 10 = b.toNat - 48 by omega]
      rw [show ((d.toNat - 48) * 10 + (e.toNat - 48)) / 10 = d.toNat - 48 by omega]
      rw [show ((d.toNat - 48) * 10 + (e.toNat - 48)) % 10 = e.toNat - 48 by omega]
      rw [show 48 + (a.toNat - 48) = a.toNat by omega]
      rw [show 48 + (b.toNat - 48) = b.toNat by omega]
      rw [show 48 + (d.toNat - 48) = d.toNat by omega]
      rw [show 48 + (e.toNat - 48) = e.toNat by omega]
      rw [Char.ofNat_toNat, Char.ofNat_toNat, Char.ofNat_toNat, Char.ofNat_toNat, hc]
  · rintro ⟨h, m, hh, hm, hs⟩
    rw [hs]
    simp only [timeStr, schemaAccepts, Bool.and_eq_true, beq_iff_eq]
    refine ⟨⟨⟨⟨ofNat_digit_isDigit (by omega), ofNat_digit_isDigit (by omega)⟩,
      trivial⟩, ofNat_digit_isDigit (by omega)⟩, ofNat_digit_isDigit (by omega)⟩

/-- C5: when wake ≤ bed (equality included) the rollover flag is set and
the duration is wake − bed + 1440; when wake > bed the flag is unset and
the duration is wake − bed. -/
theorem rollover_rule (bed wake : Nat) (hb : bed < 1440) (hw : wake < 1440) :
    (wake ≤ bed → wakeIsNextDay bed wake = true ∧
      (durationMinutes bed wake : Int) = wake - bed + 1440) ∧
    (bed < wake → wakeIsNextDay bed wake = false ∧
      (durationMinutes bed wake : Int) = wake - bed) := by
  unfold wakeIsNextDay durationMinutes wakeAdjusted
  constructor
  · intro h
    refine ⟨by simp [h], ?_⟩
    rw [if_pos h]
    omega
  · intro h
    refine ⟨by simp [Nat.not_le.mpr h], ?_⟩
    rw [if_neg (Nat.not_le.mpr h)]
    omega

/-- Witness for C5 at bed = 22:00, wake = 06:00 (rollover branch). -/
theorem rollover_rule_witness :
    wakeIsNextDay 1320 360 = true ∧
      (durationMinutes 1320 360 : Int) = 360 - 1320 + 1440 :=
  (rollover_rule 1320 360 (by decide) (by decide)).1 (by decide)

/-- C6: the codec round-trips — decode after encode is the identity on
sleep levels in [-10, 10], encode after decode is the identity on stored
multiples of 10 in [-100, 100], and concretely encode(-10) = -100,
decode(-100) = -10, encode(0) = 0. -/
theorem codec_round_trip (l s : Int) (hl1 : -10 ≤ l) (hl2 : l ≤ 10)
    (hs1 : -100 ≤ s) (hs2 : s ≤ 100) (hmul : 10 ∣ s) :
    decode (encode (l : ℚ)) = (l : ℚ) ∧ encode (decode s) = s ∧
      encode (-10 : ℚ) = -100 ∧ decode (-100) = -10 ∧ encode 0 = 0 := by
  have henc : ∀ z : Int, encode (z : ℚ) = 10 * z := by
    intro z
    unfold encode jsRound
    rw [show (z : ℚ) * 10 + 1 / 2 = (10 * z : Int) + 1 / 2 by push_cast; ring]
    rw [Int.floor_int_add]
    norm_num
  have hdec : ∀ z : Int, decode (10 * z) = (z : ℚ) := by
    intro z
    unfold decode
    push_cast
    ring
  obtain ⟨k, hk⟩ := hmul
  refine ⟨?_, ?_, ?_, ?_, ?_⟩
  · rw [henc, hdec]
  · rw [hk, hdec, henc]
  · rw [show (-10 : ℚ) = ((-10 : Int) : ℚ) by norm_num, henc]
    norm_num
  · rw [show (-100 : Int) = 10 * (-10) by norm_num, hdec]
    norm_num
  · rw [show (0 : ℚ) = ((0 : Int) : ℚ) by norm_num, henc]
    norm_num

/-- Witness for C6 at level -10, stored -100. -/
theorem codec_round_trip_witness :
    decode (encode ((-10 : Int) : ℚ)) = ((-10 : Int) : ℚ) :=
  (codec_round_trip (-10) (-100) (by decide) (by decide) (by decide) (by decide)
    ⟨-10, by decide⟩).1

/-- C7: a write is never initiated while validity is Invalid — whenever
the sleep-duration error is set, `onSubmit` returns before constructing
any outbound payload, so nothing reaches the network layer. -/
theorem no_write_when_invalid (msg : String) (data : EditableState) :
    onSubmit (some msg) data = none := rfl

/-- C9: on a successful delete the editable state is reset to the
documented defaults (bed 22:00, wake 06:00, all three sleep levels 0,
the default timezone) and the existing-profile flag becomes false; the
result is independent of the previous state, so the handler consults no
stored sleep level and invokes no codec. -/
theorem delete_resets_defaults (s t : ComponentState) :
    onDeleteSuccess s = ⟨useFormDefaults, false⟩ ∧
    (onDeleteSuccess s).isExistingProfile = false ∧
    (onDeleteSuccess s).form.bedTime = "22:00" ∧
    (onDeleteSuccess s).form.wakeupTime = "06:00" ∧
    (onDeleteSuccess s).form.initialSleepLevel = 0 ∧
    (onDeleteSuccess s).form.midStageSleepLevel = 0 ∧
    (onDeleteSuccess s).form.finalSleepLevel = 0 ∧
    (onDeleteSuccess s).form.timezone = "America/New_York" ∧
    onDeleteSuccess s = onDeleteSuccess t :=
  ⟨rfl, rfl, rfl, rfl, rfl, rfl, rfl, rfl, rfl⟩

/-- C8: on a valid window (duration at least 240 minutes) the mid-stage
instant bed + 60 strictly precedes the final-stage instant
(rollover-adjusted wake) − 120, since 240 > 60 + 120. -/
theorem stage_points_ordered (bed wake : Nat) (hb : bed < 1440) (hw : wake < 1440)
    (hd : 240 ≤ durationMinutes bed wake) :
    (bed : Int) + 60 < (wakeAdjusted bed wake : Int) - 120 := by
  unfold durationMinutes at hd
  omega

/-- Witness for C8 at bed = 22:00, wake = 06:00. -/
theorem stage_points_ordered_witness :
    (1320 : Int) + 60 < (wakeAdjusted 1320 360 : Int) - 120 :=
  stage_points_ordered 1320 360 (by decide) (by decide) (by decide)

/-- C10: encode after decode is the identity on every integer stored
value in [-100, 100], not only multiples of 10 — decode passes
fractional levels through (decode 55 = 5.5) and encode restores the
original stored integer. -/
theorem encode_decode_id (s : Int) (h1 : -100 ≤ s) (h2 : s ≤ 100) :
    encode (decode s) = s ∧ decode 55 = 11 / 2 := by
  constructor
  · unfold encode decode jsRound
    rw [div_mul_cancel₀ _ (by norm_num : (10 : ℚ) ≠ 0)]
    rw [Int.floor_int_add]
    norm_num
  · unfold decode
    norm_num

/-- Witness for C10 at stored value 55. -/
theorem encode_decode_id_witness :
    encode (decode 55) = 55 ∧ decode 55 = 11 / 2 :=
  encode_decode_id 55 (by decide) (by decide)

end EightSleep
